import Mathlib

/-!
Shallow embedding of `src/gazebo_mavlink_interface.cpp` (sitl_gazebo MAVLink
bridge plugin) and verification of the specification's claims about it.

Conventions of the embedding:
* C `double`/`float` arithmetic is modelled over `ℚ` where the relevant code is
  ring arithmetic and comparisons, and over `ℝ` where the code calls
  transcendental libm functions (`sin`, `cos`, `asin`, `atan2`, `sqrt`).
* Values of external libm calls that feed a rational pipeline (e.g.
  `sqrt(dt)`) are passed as explicit inputs computed upstream.
* Random draws from `std::normal_distribution(0, σ)` are modelled as
  `σ * w` with the standard-normal sample `w` an explicit input.
* Possibly non-finite float values are modelled as a rational payload paired
  with a finiteness flag (`FloatVal`).
-/

namespace SitlGazebo

/-! ### Basic data -/

/-- A 3-component vector over ℚ (models `gazebo::math::Vector3`). -/
structure Vec3 where
  x : ℚ
  y : ℚ
  z : ℚ
  deriving DecidableEq, Repr

/-- `math::Vector3::Set()` with no arguments: reset to zero. -/
def Vec3.zero : Vec3 := ⟨0, 0, 0⟩

/-! ### C1: `handle_message`, MAVLINK_MSG_ID_HIL_ACTUATOR_CONTROLS branch
(`gazebo_mavlink_interface.cpp` lines 937-971). -/

/-- MAVLink constant `MAV_MODE_FLAG_SAFETY_ARMED` (bit 7 of the mode mask). -/
def MAV_MODE_FLAG_SAFETY_ARMED : ℕ := 128

/-- `armed` flag extraction: `(controls.mode & MAV_MODE_FLAG_SAFETY_ARMED) > 0`
(lines 943-947). -/
def armedOf (mode : ℕ) : Bool := decide ((mode &&& MAV_MODE_FLAG_SAFETY_ARMED) > 0)

/-- Decoded `mavlink_hil_actuator_controls_t` message: the raw normalized
control array and the status bitmask `mode`. -/
structure HilActuatorControls where
  controls : ℕ → ℚ
  mode : ℕ

/-- The per-channel configuration read from SDF at `Load` time: the arrays
`input_offset_`, `input_scaling_`, `zero_position_disarmed_`,
`zero_position_armed_` of the plugin, indexed by channel. -/
structure ChannelConfig where
  input_offset : ℕ → ℚ
  input_scaling : ℕ → ℚ
  zero_position_disarmed : ℕ → ℚ
  zero_position_armed : ℕ → ℚ

/-- The actuator-command state of the plugin that `handle_message` overwrites:
`input_reference_`, `received_first_referenc_`, `last_actuator_time_`. -/
structure ActuatorCommandState where
  input_reference : List ℚ
  received_first_referenc : Bool
  last_actuator_time : ℚ
  deriving DecidableEq, Repr

/-- `GazeboMavlinkInterface::handle_message`, HIL_ACTUATOR_CONTROLS case
(lines 940-969): extract `armed` from the mode bitmask, set
`last_actuator_time_` to the current sim time, set `input_index_[i] = i`,
resize `input_reference_` to `n_out_max` and fill every entry:
armed ⇒ `(controls.controls[i] + input_offset_[i]) * input_scaling_[i] +
zero_position_armed_[i]`, disarmed ⇒ `zero_position_disarmed_[i]`;
finally set `received_first_referenc_ = true`. -/
def handle_message (n_out_max : ℕ) (cfg : ChannelConfig)
    (ctrl : HilActuatorControls) (sim_time : ℚ)
    (_old : ActuatorCommandState) : ActuatorCommandState :=
  let armed := armedOf ctrl.mode
  { input_reference :=
      (List.range n_out_max).map (fun i =>
        if armed then
          (ctrl.controls i + cfg.input_offset i) * cfg.input_scaling i
            + cfg.zero_position_armed i
        else
          cfg.zero_position_disarmed i)
    received_first_referenc := true
    last_actuator_time := sim_time }

/-! ### C2: stale-command fail-safe in `OnUpdate` (lines 516-533) and
per-tick joint update `handle_control` (lines 973-1031). -/

/-- The motor-speed feedback message built in `OnUpdate` (lines 516-533):
published only when `received_first_referenc_`; each channel carries 0 when
`last_actuator_time_ == 0 || current_time - last_actuator_time_ > 0.2`,
otherwise the stored `input_reference_` value. -/
def motorFeedback (st : ActuatorCommandState) (current_time : ℚ) :
    Option (List ℚ) :=
  if st.received_first_referenc then
    some (st.input_reference.map (fun v =>
      if st.last_actuator_time = 0 ∨ current_time - st.last_actuator_time > 1/5
      then 0 else v))
  else
    none

/-- The per-channel action taken by `handle_control`. -/
inductive JointAction where
  | force (f : ℚ)
  | publishTarget (v : ℚ)
  | setPosition (v : ℚ)
  | inert
  | badControlType
  deriving DecidableEq, Repr

/-- Read-only per-tick joint data and PID update supplied by the simulation
engine: joint presence, `joint_control_type_`, `GetVelocity(0)`,
`GetAngle(0).Radian()`, and `pids_[i].Update` (gazebo `common::PID`, an
external collaborator, abstracted as a per-channel function of error and dt). -/
structure JointEnv where
  hasJoint : ℕ → Bool
  joint_control_type : ℕ → String
  velocity : ℕ → ℚ
  angle : ℕ → ℚ
  pidUpdate : ℕ → ℚ → ℚ → ℚ

/-- `GazeboMavlinkInterface::handle_control` (lines 973-1031): for each
channel with a bound joint, take `target = input_reference_[i]` and dispatch
on `joint_control_type_[i]`: velocity ⇒ force from PID on
`GetVelocity(0) - target`; position ⇒ force from PID on
`GetAngle(0) - target`; position_gztopic ⇒ publish target;
position_kinematic ⇒ set joint position to `input_reference_[i]`;
otherwise log an error and do nothing. -/
def handle_control (env : JointEnv) (input_reference : List ℚ) (dt : ℚ) :
    List JointAction :=
  (List.range input_reference.length).map (fun i =>
    if env.hasJoint i then
      let target := input_reference.getD i 0
      if env.joint_control_type i = "velocity" then
        .force (env.pidUpdate i (env.velocity i - target) dt)
      else if env.joint_control_type i = "position" then
        .force (env.pidUpdate i (env.angle i - target) dt)
      else if env.joint_control_type i = "position_gztopic" then
        .publishTarget target
      else if env.joint_control_type i = "position_kinematic" then
        .setPosition (input_reference.getD i 0)
      else
        .badControlType
    else
      .inert)

/-! ### C4: `send_mavlink_message` (lines 646-663). -/

/-- A `struct sockaddr_in`: IPv4 address and port. -/
structure SockAddrIn where
  sin_addr : ℕ
  sin_port : ℕ
  deriving DecidableEq, Repr

/-- A single UDP datagram handed to `sendto`. -/
structure Datagram where
  payload : List ℕ
  dest : SockAddrIn
  deriving DecidableEq, Repr

/-- Result of the send: `sendto` returned `len`; `len <= 0` only prints a
diagnostic. -/
inductive SendOutcome where
  | sent
  | loggedFailure
  deriving DecidableEq, Repr

/-- `GazeboMavlinkInterface::send_mavlink_message` (lines 646-663):
serialize the message with `mavlink_msg_to_send_buffer` (external codec,
abstracted as `serialize`), copy `_srcaddr` into `dest_addr`, override
`dest_addr.sin_port` when `destination_port != 0` — and then call
`sendto(_fd, buffer, packetlen, 0, &_srcaddr, ...)`, i.e. the datagram is
addressed with `_srcaddr`, not `dest_addr`. Exactly one datagram is produced;
no state other than the wire is touched. -/
def send_mavlink_message (serialize : ℕ → List ℕ) (srcaddr : SockAddrIn)
    (message : ℕ) (destination_port : ℕ) : Datagram :=
  let buffer := serialize message
  let dest_addr : SockAddrIn :=
    if destination_port ≠ 0 then { srcaddr with sin_port := destination_port }
    else srcaddr
  -- the sendto call passes `_srcaddr`; `dest_addr` is left unused
  { payload := buffer, dest := srcaddr }

/-- Post-send error handling (lines 660-662): a non-positive byte count is
logged, nothing else happens, the send is not retried. -/
def send_result_handling (len : ℤ) : SendOutcome :=
  if len ≤ 0 then .loggedFailure else .sent

/-! ### C7: `OpticalFlowCallback` (lines 834-855) and the gyro accumulator
update in `ImuCallback` (lines 767-773). -/

/-- Fields of the incoming gazebo optical-flow message that the callback
reads. -/
structure OpticalFlowIn where
  sensor_id : ℚ
  integration_time_us : ℚ
  integrated_x : ℚ
  integrated_y : ℚ
  quality : ℕ
  temperature : ℚ
  time_delta_distance_us : ℚ

/-- The emitted `mavlink_hil_optical_flow_t` message. -/
structure HilOpticalFlow where
  time_usec : ℚ
  sensor_id : ℚ
  integration_time_us : ℚ
  integrated_x : ℚ
  integrated_y : ℚ
  integrated_xgyro : ℚ
  integrated_ygyro : ℚ
  integrated_zgyro : ℚ
  temperature : ℚ
  quality : ℕ
  time_delta_distance_us : ℚ
  distance : ℚ
  deriving DecidableEq, Repr

/-- `GazeboMavlinkInterface::OpticalFlowCallback` (lines 834-855): build the
HIL optical-flow message — the gyro integral fields are
`quality ? (-optflow_gyro.y, optflow_gyro.x, -optflow_gyro.z) : (0,0,0)`
(x/y switched, z negated) — then reset `optflow_gyro` with `Set()`.
Returns the emitted message and the new accumulator value. -/
def OpticalFlowCallback (msgIn : OpticalFlowIn) (optflow_gyro : Vec3)
    (optflow_distance : ℚ) (now_usec : ℚ) : HilOpticalFlow × Vec3 :=
  ({ time_usec := now_usec
     sensor_id := msgIn.sensor_id
     integration_time_us := msgIn.integration_time_us
     integrated_x := msgIn.integrated_x
     integrated_y := msgIn.integrated_y
     integrated_xgyro := if msgIn.quality ≠ 0 then -optflow_gyro.y else 0
     integrated_ygyro := if msgIn.quality ≠ 0 then optflow_gyro.x else 0
     integrated_zgyro := if msgIn.quality ≠ 0 then -optflow_gyro.z else 0
     temperature := msgIn.temperature
     quality := msgIn.quality
     time_delta_distance_us := msgIn.time_delta_distance_us
     distance := optflow_distance },
   Vec3.zero)

/-- Gyro accumulation for the optical-flow message, from `ImuCallback`
(lines 767-773): once the elapsed time since the last accumulation exceeds
1000 µs, add `gyro_b * (dt_us / 1e6)` to the accumulator and update the
static timestamp; otherwise leave both unchanged. -/
def accumulateOptflowGyro (optflow_gyro : Vec3) (last_dt_us : ℚ)
    (now_usec : ℚ) (gyro_b : Vec3) : Vec3 × ℚ :=
  let dt_us := now_usec - last_dt_us
  if dt_us > 1000 then
    (⟨optflow_gyro.x + gyro_b.x * (dt_us / 1000000),
      optflow_gyro.y + gyro_b.y * (dt_us / 1000000),
      optflow_gyro.z + gyro_b.z * (dt_us / 1000000)⟩, now_usec)
  else
    (optflow_gyro, last_dt_us)

/-! ### GPS producer in `OnUpdate` (lines 561-611): noise/bias model,
double rate gate, message fields — used by C5, C6 and C10. -/

/-- `gps_update_interval_ = 0.2` s (line 441). -/
def gps_update_interval : ℚ := 1/5

/-- `gps_delay_ = 0.12` s (line 442). -/
def gps_delay : ℚ := 3/25

/-- GPS noise parameters of the plugin (`gps_noise_density`,
`gps_random_walk`, `gps_corellation_time` — declared in the plugin header)
together with the run constant `sqrtf(2*gps_corellation_time - 1)` whose
libm square root is supplied as an explicit value. -/
structure GpsNoiseConfig where
  gps_noise_density : ℚ
  gps_random_walk : ℚ
  gps_corellation_time : ℚ
  sqrt_2tau_m1 : ℚ

/-- The GPS bias state `gps_bias_x_`, `gps_bias_y_`, `gps_bias_z_`. -/
structure GpsBias where
  x : ℚ
  y : ℚ
  z : ℚ
  deriving DecidableEq, Repr

/-- The `mavlink_hil_gps_t` fields written by the producer (values before the
struct-field integer truncation). -/
structure HilGpsMsg where
  time_usec : ℚ
  fix_type : ℕ
  lat : ℚ
  lon : ℚ
  alt : ℚ
  eph : ℚ
  epv : ℚ
  vel : ℚ
  vn : ℚ
  ve : ℚ
  vd : ℚ
  cog : ℚ
  satellites_visible : ℕ
  deriving DecidableEq, Repr

/-- Per-tick ground-truth inputs to the GPS producer: the current simulated
time, the projected latitude/longitude in degrees (`lat_rad * 180/π`,
`lon_rad * 180/π`), the world position z, the world linear velocity, and the
values of the libm calls feeding the pipeline: `sqrt(dt_gps)`,
`velocity_current_W_xy.GetLength()`, and `GetDegrees360(cog)`; plus the six
standard-normal draws of the tick. -/
structure GpsTickInput where
  time : ℚ
  lat_deg : ℚ
  lon_deg : ℚ
  pos_z : ℚ
  vel_x : ℚ
  vel_y : ℚ
  vel_z : ℚ
  sqrt_dt_gps : ℚ
  speed_xy : ℚ
  cog_deg360 : ℚ
  w_noise_x : ℚ
  w_noise_y : ℚ
  w_noise_z : ℚ
  w_walk_x : ℚ
  w_walk_y : ℚ
  w_walk_z : ℚ

/-- The three white-noise terms of a tick (lines 564-566):
`gps_noise_density * sqrt(dt_gps) * N(0,1)`. -/
def gpsNoise (cfg : GpsNoiseConfig) (inp : GpsTickInput) : GpsBias :=
  ⟨cfg.gps_noise_density * inp.sqrt_dt_gps * inp.w_noise_x,
   cfg.gps_noise_density * inp.sqrt_dt_gps * inp.w_noise_y,
   cfg.gps_noise_density * inp.sqrt_dt_gps * inp.w_noise_z⟩

/-- The bias random-walk update of a tick (lines 567-573):
`bias += gps_random_walk * N(0,1) - bias / gps_corellation_time`. -/
def gpsBiasStep (cfg : GpsNoiseConfig) (b : GpsBias) (inp : GpsTickInput) :
    GpsBias :=
  ⟨b.x + cfg.gps_random_walk * inp.w_walk_x - b.x / cfg.gps_corellation_time,
   b.y + cfg.gps_random_walk * inp.w_walk_y - b.y / cfg.gps_corellation_time,
   b.z + cfg.gps_random_walk * inp.w_walk_z - b.z / cfg.gps_corellation_time⟩

/-- `alt_home` (line 41, before any environment override): 488 m. -/
def alt_home : ℚ := 488

/-- The `hil_gps_msg_` fields computed in the pre-computation pass
(lines 580-596), given the already-updated bias of the tick. -/
def computeHilGps (cfg : GpsNoiseConfig) (inp : GpsTickInput)
    (bias : GpsBias) : HilGpsMsg :=
  let noise := gpsNoise cfg inp
  let std_xy := cfg.gps_random_walk * cfg.gps_corellation_time / cfg.sqrt_2tau_m1
  { time_usec := inp.time * 1000000
    fix_type := 3
    lat := (inp.lat_deg + (noise.x + bias.x) * (1/100000)) * 10000000
    lon := (inp.lon_deg + (noise.y + bias.y) * (1/100000)) * 10000000
    alt := (inp.pos_z + alt_home) * 1000 + noise.z + bias.z
    eph := 100 * (std_xy + cfg.gps_noise_density * cfg.gps_noise_density)
    epv := 100 * (std_xy + cfg.gps_noise_density * cfg.gps_noise_density)
    vel := inp.speed_xy * 100
    vn := inp.vel_y * 100
    ve := inp.vel_x * 100
    vd := -inp.vel_z * 100
    cog := inp.cog_deg360 * 100
    satellites_visible := 10 }

/-- The GPS-related persistent state of the plugin: `last_gps_time_`, the
bias triple, and the retained `hil_gps_msg_`. -/
structure GpsState where
  last_gps_time : ℚ
  bias : GpsBias
  msg : HilGpsMsg
  deriving DecidableEq, Repr

/-- One `OnUpdate` pass over the GPS section (lines 561-611): when
`current_time - last_gps_time_ > gps_update_interval_ - gps_delay_` the noise
is redrawn, the bias is stepped and all `hil_gps_msg_` fields are recomputed;
when additionally `current_time - last_gps_time_ > gps_update_interval_` the
retained message is sent and `last_gps_time_` is set to the current time.
Returns the new state and the emitted message, if any. -/
def gpsTick (cfg : GpsNoiseConfig) (st : GpsState) (inp : GpsTickInput) :
    GpsState × Option HilGpsMsg :=
  let dt_gps := inp.time - st.last_gps_time
  let (bias', msg') :=
    if dt_gps > gps_update_interval - gps_delay then
      let b := gpsBiasStep cfg st.bias inp
      (b, computeHilGps cfg inp b)
    else (st.bias, st.msg)
  if dt_gps > gps_update_interval then
    (⟨inp.time, bias', msg'⟩, some msg')
  else
    (⟨st.last_gps_time, bias', msg'⟩, none)

/-- The emission times of the GPS rate gate over a list of tick times
(the emit check of lines 599-611 in isolation: emit when
`now - last_gps_time_ > gps_update_interval_`, and then reset
`last_gps_time_` to `now`). -/
def gpsEmitTimes (ticks : List ℚ) (last : ℚ) : List ℚ :=
  match ticks with
  | [] => []
  | t :: rest =>
      if t - last > gps_update_interval then t :: gpsEmitTimes rest t
      else gpsEmitTimes rest last

/-! ### C5: magnetometer noise in `ImuCallback` (lines 721-735). -/

/-- The magnetometer field placed in the HIL sensor message (lines 721-735):
the body-frame ground-truth field `q_nb.RotateVectorReverse(mag_n)` plus a
noise draw from `std::normal_distribution<float>(0, 0.01f)` on each axis —
the standard deviation 0.01 is hard-coded, independent of every configured
noise-density or random-walk coefficient. -/
def magFieldMsg (mag_b_true : Vec3) (s : Vec3) : Vec3 :=
  ⟨mag_b_true.x + (1/100) * s.x,
   mag_b_true.y + (1/100) * s.y,
   mag_b_true.z + (1/100) * s.z⟩

/-! ### C8: barometric pressure altitude in `ImuCallback` (lines 752-763). -/

/-- A float value: rational payload plus finiteness flag. -/
structure FloatVal where
  val : ℚ
  finite : Bool
  deriving DecidableEq, Repr

/-- `FLT_EPSILON` = 2⁻²³. -/
def flt_epsilon : ℚ := 1 / 2 ^ 23

/-- The Box–Muller rejection loop (lines 755-758): draw uniform pairs
`(p1, p2)` until `p1 > FLT_EPSILON`; returns the accepted pair, or `none`
when the (finite) sample stream is exhausted. -/
def boxMullerDraw : List (ℚ × ℚ) → Option (ℚ × ℚ)
  | [] => none
  | p :: rest => if p.1 ≤ flt_epsilon then boxMullerDraw rest else some p

/-- The pressure-altitude selection (line 763): the noise-perturbed altitude
`alt_n` when it is finite, the unperturbed ground truth `-pos_n.z` (a plain
real quantity, hence finite) otherwise. -/
def pressure_alt (alt_n : FloatVal) (neg_pos_n_z : ℚ) : FloatVal :=
  if alt_n.finite then alt_n else ⟨neg_pos_n_z, true⟩

/-! ### C3: geodetic projection in `OnUpdate` (lines 546-559), and
C9: course over ground (lines 592-595). These use libm transcendentals and
are modelled over ℝ. -/

noncomputable section RealModel

open Real

/-- `earth_radius` (line 46): 6353000 m. -/
def earth_radius : ℝ := 6353000

/-- C `atan2(y, x)` (libm semantics on real arguments; the `-0.0` artefact
of IEEE does not arise over ℝ). -/
def atan2 (y x : ℝ) : ℝ :=
  if 0 < x then Real.arctan (y / x)
  else if x < 0 then
    (if 0 ≤ y then Real.arctan (y / x) + π else Real.arctan (y / x) - π)
  else
    (if 0 < y then π / 2 else if y < 0 then -(π / 2) else 0)

/-- The reprojection of the local world position to GPS coordinates
(lines 548-559): `x_rad = pos.y/R` (north), `y_rad = pos.x/R` (east),
`c = sqrt(x_rad² + y_rad²)`; if `c != 0` apply the inverse great-circle
formulas, else return the home latitude/longitude unchanged. -/
def project (pos_x pos_y lat_home lon_home : ℝ) : ℝ × ℝ :=
  let x_rad := pos_y / earth_radius
  let y_rad := pos_x / earth_radius
  let c := Real.sqrt (x_rad * x_rad + y_rad * y_rad)
  if c ≠ 0 then
    (Real.arcsin (Real.cos c * Real.sin lat_home
        + x_rad * Real.sin c * Real.cos lat_home / c),
     lon_home + atan2 (y_rad * Real.sin c)
        (c * Real.cos lat_home * Real.cos c
          - x_rad * Real.sin lat_home * Real.sin c))
  else
    (lat_home, lon_home)

/-- Modelled from the spec: `GetDegrees360` (declared in the plugin header,
not under src/) converts an angle to degrees "normalized to [0°,360°)"; on
the range (-π, π] of a `math::Angle` normalized by `Normalize()` the
while-loop normalization is a single conditional addition of 360°. -/
def GetDegrees360 (θ : ℝ) : ℝ :=
  let d := θ * 180 / π
  if d < 0 then d + 360 else d

/-- The course-over-ground value of lines 592-595:
`math::Angle cog(atan2(velocity_current_W.x, velocity_current_W.y))`,
normalized (`Normalize()` is the identity on the (-π, π] range of `atan2`),
then `GetDegrees360`. -/
def cog_deg360 (vel_x vel_y : ℝ) : ℝ :=
  GetDegrees360 (atan2 vel_x vel_y)

/-- `hil_gps_msg_.cog = static_cast<uint16_t>(GetDegrees360(cog) * 100.0)`
(line 595): the float-to-integer cast truncates toward zero; the value is
nonnegative, so it is the floor. -/
def hil_cog_field (vel_x vel_y : ℝ) : ℤ :=
  ⌊cog_deg360 vel_x vel_y * 100⌋

end RealModel

/-! ## Theorems -/

/-- C1: on decode of an actuator-command message, for every channel `i` in
`[0, N)`: if the arm flag extracted from the status bitmask is set, the new
normalized control value is `(raw_control[i] + offset[i]) * scale[i] +
armed_zero[i]`; if not set, it is `disarmed_zero[i]` regardless of the raw
control values; and the prior `ActuatorCommandState` is replaced wholesale
(the result does not depend on it, every channel is overwritten, and the
armed flag and timestamp are refreshed). -/
theorem handle_message_C1
    (n_out_max : ℕ) (cfg : ChannelConfig) (ctrl : HilActuatorControls)
    (sim_time : ℚ) (old : ActuatorCommandState) :
    (∀ i, i < n_out_max →
      (handle_message n_out_max cfg ctrl sim_time old).input_reference.getD i 0 =
        if armedOf ctrl.mode then
          (ctrl.controls i + cfg.input_offset i) * cfg.input_scaling i
            + cfg.zero_position_armed i
        else cfg.zero_position_disarmed i)
    ∧ (∀ old', handle_message n_out_max cfg ctrl sim_time old' =
        handle_message n_out_max cfg ctrl sim_time old)
    ∧ (handle_message n_out_max cfg ctrl sim_time old).input_reference.length
        = n_out_max
    ∧ (handle_message n_out_max cfg ctrl sim_time old).received_first_referenc
        = true
    ∧ (handle_message n_out_max cfg ctrl sim_time old).last_actuator_time
        = sim_time := by
  refine ⟨?_, fun _ => rfl, ?_, rfl, rfl⟩
  · intro i hi
    simp [handle_message, List.getD_eq_getElem?_getD, List.getElem?_map,
      List.getElem?_range, hi]
  · simp [handle_message]

/-- Witness for C1 at a concrete input: two channels, mode bitmask 129
(armed bit set), raw control 0 on channel 0, offset 1, scale 2,
armed zero 7. -/
theorem handle_message_C1_witness :
    (handle_message 2 ⟨fun _ => 1, fun _ => 2, fun _ => 5, fun _ => 7⟩
        ⟨fun i => (i : ℚ), 129⟩ 3 ⟨[], false, 0⟩).input_reference.getD 0 0
      = (0 + 1) * 2 + 7 := by
  have h := (handle_message_C1 2 ⟨fun _ => 1, fun _ => 2, fun _ => 5, fun _ => 7⟩
    ⟨fun i => (i : ℚ), 129⟩ 3 ⟨[], false, 0⟩).1 0 (by decide)
  rw [h]
  have ha : armedOf 129 = true := by decide
  simp [ha]

/-- C2: on a tick where more than 0.2 s elapsed since the last decoded
actuator command, the published motor-speed feedback message carries zero on
every channel instead of the stored `input_reference_` values, while
`handle_control` on that same tick still uses the stored `input_reference_`
values as the PID targets, unchanged (shown for the velocity and position
control types). -/
theorem stale_command_failsafe_C2
    (st : ActuatorCommandState) (env : JointEnv) (current_time dt : ℚ)
    (hfirst : st.received_first_referenc = true)
    (hstale : current_time - st.last_actuator_time > 1/5) :
    motorFeedback st current_time
      = some (List.replicate st.input_reference.length 0)
    ∧ (∀ i, i < st.input_reference.length → env.hasJoint i = true →
        env.joint_control_type i = "velocity" →
        (handle_control env st.input_reference dt).getD i .inert =
          .force (env.pidUpdate i
            (env.velocity i - st.input_reference.getD i 0) dt))
    ∧ (∀ i, i < st.input_reference.length → env.hasJoint i = true →
        env.joint_control_type i = "position" →
        (handle_control env st.input_reference dt).getD i .inert =
          .force (env.pidUpdate i
            (env.angle i - st.input_reference.getD i 0) dt)) := by
  refine ⟨?_, ?_, ?_⟩
  · rw [motorFeedback, if_pos (by simp [hfirst])]
    have hcond : (st.last_actuator_time = 0
        ∨ current_time - st.last_actuator_time > 1/5) := Or.inr hstale
    simp only [if_pos hcond]
    exact congrArg some (List.map_const' st.input_reference 0)
  · intro i hi hjoint htype
    simp [handle_control, List.getD_eq_getElem?_getD, List.getElem?_map,
      List.getElem?_range, hi, hjoint, htype]
  · intro i hi hjoint htype
    have hvel : ¬ env.joint_control_type i = "velocity" := by
      rw [htype]; decide
    simp [handle_control, List.getD_eq_getElem?_getD, List.getElem?_map,
      List.getElem?_range, hi, hjoint, htype, hvel]

/-- Witness for C2 at a concrete input: state with `input_reference = [4, 6]`
received at time 0, queried at time 1 (elapsed 1 s > 0.2 s): the feedback is
`[0, 0]` while the velocity-mode PID on channel 0 still receives
`current_velocity - 4`. -/
theorem stale_command_failsafe_C2_witness :
    motorFeedback ⟨[4, 6], true, 0⟩ 1 = some [0, 0]
    ∧ (handle_control
        ⟨fun _ => true, fun _ => "velocity", fun _ => 9, fun _ => 0,
          fun _ e d => e + d⟩ [4, 6] (1/2)).getD 0 .inert
        = .force ((9 - 4) + 1/2) := by
  have h := stale_command_failsafe_C2 ⟨[4, 6], true, 0⟩
    ⟨fun _ => true, fun _ => "velocity", fun _ => 9, fun _ => 0,
      fun _ e d => e + d⟩ 1 (1/2) rfl (by norm_num)
  refine ⟨?_, ?_⟩
  · have := h.1
    simpa using this
  · have := h.2.1 0 (by decide) (by decide) (by decide)
    simpa using this

/-- C4 (evaluation at the failing input): `send_mavlink_message` with a
non-zero destination-port argument 14560 and configured peer port 14556
addresses the emitted datagram with the configured port 14556 — the computed
`dest_addr` with the overridden port is never passed to `sendto` — and a
non-positive `sendto` return is only logged. -/
theorem send_ignores_destination_port_C4 :
    (send_mavlink_message (fun _ => [254, 9]) ⟨2130706433, 14556⟩ 5
        14560).dest.sin_port = 14556
    ∧ (send_mavlink_message (fun _ => [254, 9]) ⟨2130706433, 14556⟩ 5
        14560).dest.sin_port ≠ 14560
    ∧ send_result_handling (-1) = .loggedFailure := by
  refine ⟨rfl, by decide, rfl⟩

/-- C7: on every optical-flow emission, the three integrated-gyro fields are
exactly zero when the upstream quality flag is zero; otherwise they carry the
accumulated gyro integral with the x/y swap and sign convention
`(-gyro.y, gyro.x, -gyro.z)`; and the accumulator is reset to zero after the
message is built. -/
theorem optical_flow_gyro_C7 (msgIn : OpticalFlowIn) (g : Vec3)
    (dist now : ℚ) :
    (msgIn.quality = 0 →
      (OpticalFlowCallback msgIn g dist now).1.integrated_xgyro = 0
      ∧ (OpticalFlowCallback msgIn g dist now).1.integrated_ygyro = 0
      ∧ (OpticalFlowCallback msgIn g dist now).1.integrated_zgyro = 0)
    ∧ (msgIn.quality ≠ 0 →
      (OpticalFlowCallback msgIn g dist now).1.integrated_xgyro = -g.y
      ∧ (OpticalFlowCallback msgIn g dist now).1.integrated_ygyro = g.x
      ∧ (OpticalFlowCallback msgIn g dist now).1.integrated_zgyro = -g.z)
    ∧ (OpticalFlowCallback msgIn g dist now).2 = Vec3.zero := by
  refine ⟨?_, ?_, rfl⟩
  · intro hq
    simp [OpticalFlowCallback, hq]
  · intro hq
    simp [OpticalFlowCallback, hq]

/-- Witness for C7 at concrete inputs: with quality 0 the gyro fields are
zeroed and the accumulator `⟨1, 2, 3⟩` is reset; with quality 5 the fields
carry `(-2, 1, -3)`. -/
theorem optical_flow_gyro_C7_witness :
    (OpticalFlowCallback ⟨0, 10, 1, 1, 0, 20, 30⟩ ⟨1, 2, 3⟩ 5 7).1.integrated_xgyro = 0
    ∧ (OpticalFlowCallback ⟨0, 10, 1, 1, 0, 20, 30⟩ ⟨1, 2, 3⟩ 5 7).2 = Vec3.zero
    ∧ (OpticalFlowCallback ⟨0, 10, 1, 1, 5, 20, 30⟩ ⟨1, 2, 3⟩ 5 7).1.integrated_xgyro = -2 := by
  refine ⟨((optical_flow_gyro_C7 ⟨0, 10, 1, 1, 0, 20, 30⟩ ⟨1, 2, 3⟩ 5 7).1 rfl).1,
    (optical_flow_gyro_C7 ⟨0, 10, 1, 1, 0, 20, 30⟩ ⟨1, 2, 3⟩ 5 7).2.2,
    ((optical_flow_gyro_C7 ⟨0, 10, 1, 1, 5, 20, 30⟩ ⟨1, 2, 3⟩ 5 7).2.1 (by decide)).1⟩

/-- C5 counterexample: the claim "with zero noise-density and random-walk
coefficients every produced sensor value equals ground truth, in particular
the magnetometer field" fails at a concrete input: the magnetometer noise in
`ImuCallback` is drawn from a hard-coded `normal_distribution(0, 0.01f)` that
no coefficient controls, so with the Zurich ground-truth field and a
standard-normal sample `(1, 0, 0)` the emitted field differs from ground
truth. -/
theorem mag_noise_C5_counterexample :
    magFieldMsg ⟨21523/100000, 0, -42741/100000⟩ ⟨1, 0, 0⟩
      ≠ ⟨21523/100000, 0, -42741/100000⟩ := by
  intro h
  have hx := congrArg Vec3.x h
  norm_num [magFieldMsg] at hx

/-- C5 (amended): with the GPS noise-density and random-walk coefficients set
to zero and the bias state zero, the GPS noise terms vanish, the stepped bias
stays zero, and the latitude/longitude/altitude fields of the HIL GPS message
equal the ground-truth values exactly; the magnetometer field, however,
carries a hard-coded additive noise of standard deviation 0.01 independent of
those coefficients, and equals ground truth exactly when (and only when) its
normal samples are zero. -/
theorem gps_zero_noise_exact_C5
    (cfg : GpsNoiseConfig) (inp : GpsTickInput) (b : GpsBias)
    (hd : cfg.gps_noise_density = 0) (hw : cfg.gps_random_walk = 0)
    (hb : b = ⟨0, 0, 0⟩) :
    gpsNoise cfg inp = ⟨0, 0, 0⟩
    ∧ gpsBiasStep cfg b inp = ⟨0, 0, 0⟩
    ∧ (computeHilGps cfg inp (gpsBiasStep cfg b inp)).lat
        = inp.lat_deg * 10000000
    ∧ (computeHilGps cfg inp (gpsBiasStep cfg b inp)).lon
        = inp.lon_deg * 10000000
    ∧ (computeHilGps cfg inp (gpsBiasStep cfg b inp)).alt
        = (inp.pos_z + alt_home) * 1000
    ∧ (∀ mag_b_true s : Vec3,
        magFieldMsg mag_b_true s = mag_b_true ↔ s = ⟨0, 0, 0⟩) := by
  subst hb
  have hnoise : gpsNoise cfg inp = ⟨0, 0, 0⟩ := by
    simp [gpsNoise, hd]
  have hbias : gpsBiasStep cfg ⟨0, 0, 0⟩ inp = ⟨0, 0, 0⟩ := by
    simp [gpsBiasStep, hw]
  refine ⟨hnoise, hbias, ?_, ?_, ?_, ?_⟩
  · rw [hbias]; simp [computeHilGps, hnoise]
  · rw [hbias]; simp [computeHilGps, hnoise]
  · rw [hbias]; simp [computeHilGps, hnoise]
  · intro t s
    constructor
    · intro h
      have hx := congrArg Vec3.x h
      have hy := congrArg Vec3.y h
      have hz := congrArg Vec3.z h
      simp only [magFieldMsg] at hx hy hz
      have : s.x = 0 := by linarith
      have : s.y = 0 := by linarith
      have : s.z = 0 := by linarith
      cases s
      simp_all
    · intro h
      subst h
      simp [magFieldMsg]

/-- Witness for C5 (amended) at a concrete input: zero coefficients,
correlation time 2, ground truth latitude 47°. -/
theorem gps_zero_noise_exact_C5_witness :
    (computeHilGps ⟨0, 0, 2, 1⟩ ⟨0, 47, 8, 100, 1, 2, 3, 1, 2, 90, 1, 1, 1, 1, 1, 1⟩
        (gpsBiasStep ⟨0, 0, 2, 1⟩ ⟨0, 0, 0⟩
          ⟨0, 47, 8, 100, 1, 2, 3, 1, 2, 90, 1, 1, 1, 1, 1, 1⟩)).lat
      = 47 * 10000000 := by
  exact (gps_zero_noise_exact_C5 ⟨0, 0, 2, 1⟩
    ⟨0, 47, 8, 100, 1, 2, 3, 1, 2, 90, 1, 1, 1, 1, 1, 1⟩ ⟨0, 0, 0⟩
    rfl rfl rfl).2.2.1

/-- Helper for C6: if every tick before `t` is within the update interval of
the gate's initial timestamp and `t` is beyond it, the first emission of the
run is at `t`. -/
theorem gpsEmitTimes_head_of_first (pre : List ℚ) (t : ℚ) (post : List ℚ)
    (last0 : ℚ)
    (hpre : ∀ s ∈ pre, s - last0 ≤ gps_update_interval)
    (ht : t - last0 > gps_update_interval) :
    (gpsEmitTimes (pre ++ t :: post) last0).head? = some t := by
  induction pre with
  | nil =>
      simp only [List.nil_append, gpsEmitTimes]
      rw [if_pos ht]
      rfl
  | cons s rest ih =>
      have hs : ¬ (s - last0 > gps_update_interval) :=
        not_lt.mpr (hpre s (List.mem_cons_self s rest))
      simp only [List.cons_append, gpsEmitTimes]
      rw [if_neg hs]
      exact ih (fun x hx => hpre x (List.mem_cons_of_mem s hx))

/-- C6: for the GPS rate gate (interval 0.2 s, transport delay 0.12 s), over
any sequence of ticks: consecutive emission times (starting from the gate's
initial timestamp) are separated by more than 0.2 s — in particular by at
least 0.08 s, and at most one emission falls in any 0.2 s window — and the
first tick at which more than 0.2 s has elapsed since the gate's timestamp is
the first emission. -/
theorem gps_rate_gate_C6 (ticks : List ℚ) (last0 : ℚ) :
    List.Chain (fun a b => b - a ≥ gps_update_interval - gps_delay
        ∧ b - a > gps_update_interval)
      last0 (gpsEmitTimes ticks last0)
    ∧ (∀ pre t post, ticks = pre ++ t :: post →
        (∀ s ∈ pre, s - last0 ≤ gps_update_interval) →
        t - last0 > gps_update_interval →
        (gpsEmitTimes ticks last0).head? = some t) := by
  constructor
  · induction ticks generalizing last0 with
    | nil => exact List.Chain.nil
    | cons t rest ih =>
        simp only [gpsEmitTimes]
        by_cases h : t - last0 > gps_update_interval
        · rw [if_pos h]
          exact List.Chain.cons
            ⟨by norm_num [gps_update_interval, gps_delay] at h ⊢; linarith, h⟩
            (ih t)
        · rw [if_neg h]
          exact ih last0
  · intro pre t post heq hpre ht
    rw [heq]
    exact gpsEmitTimes_head_of_first pre t post last0 hpre ht

/-- Witness for C6 at a concrete run: gate timestamp 0, ticks at 0.10, 0.21,
0.30, 0.45 s; the first emission is at 0.21 s (the first tick beyond 0.2 s)
and the run emits exactly at 0.21 s and 0.45 s. -/
theorem gps_rate_gate_C6_witness :
    (gpsEmitTimes [1/10, 21/100, 3/10, 45/100] 0).head? = some (21/100)
    ∧ List.Chain (fun a b => b - a ≥ gps_update_interval - gps_delay
        ∧ b - a > gps_update_interval)
      0 (gpsEmitTimes [1/10, 21/100, 3/10, 45/100] 0) := by
  constructor
  · exact (gps_rate_gate_C6 [1/10, 21/100, 3/10, 45/100] 0).2
      [1/10] (21/100) [3/10, 45/100] rfl
      (by intro s hs; simp at hs; subst hs; norm_num [gps_update_interval])
      (by norm_num [gps_update_interval])
  · exact (gps_rate_gate_C6 [1/10, 21/100, 3/10, 45/100] 0).1

/-- C8: the Box–Muller rejection loop only ever accepts a first uniform
sample strictly above machine epsilon, and the pressure-altitude field is the
noise-perturbed altitude when that value is finite and exactly the
unperturbed ground-truth altitude when it is not — so the field placed in the
protocol message is always finite (never NaN/Inf). -/
theorem baro_pressure_alt_C8 (samples : List (ℚ × ℚ)) (alt_n : FloatVal)
    (neg_pos_n_z : ℚ) :
    (∀ p, boxMullerDraw samples = some p → p.1 > flt_epsilon)
    ∧ (alt_n.finite = true → pressure_alt alt_n neg_pos_n_z = alt_n)
    ∧ (alt_n.finite = false →
        pressure_alt alt_n neg_pos_n_z = ⟨neg_pos_n_z, true⟩)
    ∧ (pressure_alt alt_n neg_pos_n_z).finite = true := by
  refine ⟨?_, ?_, ?_, ?_⟩
  · intro p hp
    induction samples with
    | nil => cases hp
    | cons q rest ih =>
        by_cases hq : q.1 ≤ flt_epsilon
        · exact ih (by simpa [boxMullerDraw, hq] using hp)
        · have : some q = some p := by simpa [boxMullerDraw, hq] using hp
          cases this
          exact not_le.mp hq
  · intro h; simp [pressure_alt, h]
  · intro h; simp [pressure_alt, h]
  · by_cases h : alt_n.finite = true
    · simp [pressure_alt, h]
    · simp [pressure_alt, h]

/-- Witness for C8 at concrete inputs: the stream `[(0, 1), (1/2, 1/4)]`
rejects the degenerate first pair and accepts `p1 = 1/2 > ε`; a non-finite
perturbed altitude `⟨9, false⟩` is replaced by the ground truth 4. -/
theorem baro_pressure_alt_C8_witness :
    flt_epsilon < 1/2
    ∧ pressure_alt ⟨9, false⟩ 4 = ⟨4, true⟩
    ∧ (pressure_alt ⟨9, false⟩ 4).finite = true := by
  refine ⟨?_, ?_, ?_⟩
  · exact (baro_pressure_alt_C8 [(0, 1), (1/2, 1/4)] ⟨9, false⟩ 4).1
      (1/2, 1/4) (by norm_num [boxMullerDraw, flt_epsilon])
  · exact (baro_pressure_alt_C8 [(0, 1), (1/2, 1/4)] ⟨9, false⟩ 4).2.2.1 rfl
  · exact (baro_pressure_alt_C8 [(0, 1), (1/2, 1/4)] ⟨9, false⟩ 4).2.2.2

/-- Helper: closed form of one `OnUpdate` pass over the GPS section as a
four-way case split on the two gate conditions. -/
theorem gpsTick_eq (cfg : GpsNoiseConfig) (st : GpsState) (inp : GpsTickInput) :
    gpsTick cfg st inp =
      if inp.time - st.last_gps_time > gps_update_interval - gps_delay then
        (if inp.time - st.last_gps_time > gps_update_interval then
          (⟨inp.time, gpsBiasStep cfg st.bias inp,
              computeHilGps cfg inp (gpsBiasStep cfg st.bias inp)⟩,
           some (computeHilGps cfg inp (gpsBiasStep cfg st.bias inp)))
         else
          (⟨st.last_gps_time, gpsBiasStep cfg st.bias inp,
              computeHilGps cfg inp (gpsBiasStep cfg st.bias inp)⟩, none))
      else
        (if inp.time - st.last_gps_time > gps_update_interval then
          (⟨inp.time, st.bias, st.msg⟩, some st.msg)
         else
          (⟨st.last_gps_time, st.bias, st.msg⟩, none)) := by
  unfold gpsTick
  by_cases h1 : inp.time - st.last_gps_time > gps_update_interval - gps_delay
    <;> by_cases h2 : inp.time - st.last_gps_time > gps_update_interval
    <;> simp [h1, h2]

/-- C10: on every tick at which more than `interval - delay` (0.08 s) has
elapsed since the last GPS emission, the noise is redrawn, the bias
random-walk is stepped once and all message fields are recomputed (and on
other ticks nothing changes); an emission carries exactly the message fields
computed on that same tick; and a concrete two-tick run inside one 0.2 s
window (ticks at 0.10 s and 0.15 s, random-walk coefficient 1, correlation
time 2) steps the bias twice, from 0 to 1 to 3/2 — not once per window. -/
theorem gps_precompute_per_tick_C10 (cfg : GpsNoiseConfig) (st : GpsState)
    (inp : GpsTickInput) :
    (inp.time - st.last_gps_time > gps_update_interval - gps_delay →
      (gpsTick cfg st inp).1.bias = gpsBiasStep cfg st.bias inp
      ∧ (gpsTick cfg st inp).1.msg
          = computeHilGps cfg inp (gpsBiasStep cfg st.bias inp))
    ∧ (¬ inp.time - st.last_gps_time > gps_update_interval - gps_delay →
      (gpsTick cfg st inp).1.bias = st.bias
      ∧ (gpsTick cfg st inp).1.msg = st.msg
      ∧ (gpsTick cfg st inp).2 = none)
    ∧ (inp.time - st.last_gps_time > gps_update_interval →
      (gpsTick cfg st inp).2
          = some (computeHilGps cfg inp (gpsBiasStep cfg st.bias inp))
      ∧ (gpsTick cfg st inp).1.last_gps_time = inp.time)
    ∧ (gpsTick ⟨0, 1, 2, 1⟩
        (gpsTick ⟨0, 1, 2, 1⟩
          ⟨0, ⟨0, 0, 0⟩, ⟨0, 3, 0, 0, 0, 0, 0, 0, 0, 0, 0, 0, 10⟩⟩
          ⟨1/10, 0, 0, 0, 0, 0, 0, 0, 0, 0, 0, 0, 0, 1, 1, 1⟩).1
        ⟨3/20, 0, 0, 0, 0, 0, 0, 0, 0, 0, 0, 0, 0, 1, 1, 1⟩).1.bias
        = ⟨3/2, 3/2, 3/2⟩ := by
  refine ⟨?_, ?_, ?_, ?_⟩
  · intro h1
    rw [gpsTick_eq, if_pos h1]
    by_cases h2 : inp.time - st.last_gps_time > gps_update_interval
    · rw [if_pos h2]; exact ⟨rfl, rfl⟩
    · rw [if_neg h2]; exact ⟨rfl, rfl⟩
  · intro h1
    have h2 : ¬ inp.time - st.last_gps_time > gps_update_interval := by
      rw [not_lt] at h1 ⊢
      have : gps_update_interval - gps_delay ≤ gps_update_interval := by
        norm_num [gps_update_interval, gps_delay]
      linarith
    rw [gpsTick_eq, if_neg h1, if_neg h2]
    exact ⟨rfl, rfl, rfl⟩
  · intro h2
    have h1 : inp.time - st.last_gps_time > gps_update_interval - gps_delay := by
      have : gps_update_interval - gps_delay < gps_update_interval := by
        norm_num [gps_update_interval, gps_delay]
      linarith
    rw [gpsTick_eq, if_pos h1, if_pos h2]
    exact ⟨rfl, rfl⟩
  · rw [gpsTick_eq, gpsTick_eq]
    norm_num [gps_update_interval, gps_delay, gpsBiasStep]

/-- Witness for C10 at a concrete input: the first demonstration tick
(0.10 s after the last emission, inside the 0.08 s–0.2 s pre-computation
region) steps the bias from 0 to 1 on each axis. -/
theorem gps_precompute_per_tick_C10_witness :
    (gpsTick ⟨0, 1, 2, 1⟩
        ⟨0, ⟨0, 0, 0⟩, ⟨0, 3, 0, 0, 0, 0, 0, 0, 0, 0, 0, 0, 10⟩⟩
        ⟨1/10, 0, 0, 0, 0, 0, 0, 0, 0, 0, 0, 0, 0, 1, 1, 1⟩).1.bias
      = ⟨1, 1, 1⟩ := by
  have h := (gps_precompute_per_tick_C10 ⟨0, 1, 2, 1⟩
    ⟨0, ⟨0, 0, 0⟩, ⟨0, 3, 0, 0, 0, 0, 0, 0, 0, 0, 0, 0, 10⟩⟩
    ⟨1/10, 0, 0, 0, 0, 0, 0, 0, 0, 0, 0, 0, 0, 1, 1, 1⟩).1
    (by norm_num [gps_update_interval, gps_delay])
  rw [h.1]
  norm_num [gpsBiasStep]

/-- C3: the geodetic projection of zero displacement returns exactly the home
latitude and longitude, for every home reference. -/
theorem project_home_C3 (lat_home lon_home : ℝ) :
    project 0 0 lat_home lon_home = (lat_home, lon_home) := by
  simp [project, Real.sqrt_zero]

open Real

/-- Helper: the C-library `atan2` never exceeds π. -/
theorem atan2_le_pi (y x : ℝ) : atan2 y x ≤ π := by
  have hp := Real.pi_pos
  unfold atan2
  split_ifs with hx hx2 hy hy1 hy2
  · have := Real.arctan_lt_pi_div_two (y / x)
    linarith
  · have hyx : y / x ≤ 0 := div_nonpos_iff.mpr (Or.inl ⟨hy, hx2.le⟩)
    have harc : Real.arctan (y / x) ≤ Real.arctan 0 :=
      Real.arctan_strictMono.monotone hyx
    rw [Real.arctan_zero] at harc
    linarith
  · have := Real.arctan_lt_pi_div_two (y / x)
    linarith
  · linarith
  · linarith
  · linarith

/-- Helper: the C-library `atan2` is strictly above -π. -/
theorem neg_pi_lt_atan2 (y x : ℝ) : -π < atan2 y x := by
  have hp := Real.pi_pos
  unfold atan2
  split_ifs with hx hx2 hy hy1 hy2
  · have := Real.neg_pi_div_two_lt_arctan (y / x)
    linarith
  · have := Real.neg_pi_div_two_lt_arctan (y / x)
    linarith
  · have hyx : 0 < y / x := div_pos_iff.mpr (Or.inr ⟨not_le.mp hy, hx2⟩)
    have harc : Real.arctan 0 < Real.arctan (y / x) :=
      Real.arctan_strictMono hyx
    rw [Real.arctan_zero] at harc
    linarith
  · linarith
  · linarith
  · linarith

/-- Helper: closed form of the course-over-ground degrees value. -/
theorem cog_deg360_eq (vx vy : ℝ) :
    cog_deg360 vx vy =
      if atan2 vx vy * 180 / π < 0 then atan2 vx vy * 180 / π + 360
      else atan2 vx vy * 180 / π := rfl

/-- C9: the course-over-ground field of the GPS message is
`atan2(vel_x, vel_y)` — argument order x before y, the navigation-frame
bearing — normalized into [0°, 360°) (the normalized value equals the raw
`atan2` bearing modulo 360°) and scaled by 100 into centidegrees, so the
stored integer lies in [0, 36000) and fits the protocol field; in
particular a velocity due north maps to 0°, due east to 90°, due south to
180° and due west to 270°. -/
theorem cog_field_C9 :
    (∀ vel_x vel_y : ℝ,
      0 ≤ cog_deg360 vel_x vel_y ∧ cog_deg360 vel_x vel_y < 360
      ∧ (cog_deg360 vel_x vel_y * (π / 180) = atan2 vel_x vel_y
         ∨ cog_deg360 vel_x vel_y * (π / 180) = atan2 vel_x vel_y + 2 * π)
      ∧ 0 ≤ hil_cog_field vel_x vel_y ∧ hil_cog_field vel_x vel_y < 36000)
    ∧ cog_deg360 0 1 = 0 ∧ cog_deg360 1 0 = 90
    ∧ cog_deg360 0 (-1) = 180 ∧ cog_deg360 (-1) 0 = 270 := by
  have hp := Real.pi_pos
  have hpne : (π : ℝ) ≠ 0 := ne_of_gt hp
  constructor
  · intro vx vy
    have h1 : -π < atan2 vx vy := neg_pi_lt_atan2 vx vy
    have h2 : atan2 vx vy ≤ π := atan2_le_pi vx vy
    have hd1 : atan2 vx vy * 180 / π ≤ 180 := by
      rw [div_le_iff₀ hp]; nlinarith
    have hd2 : -180 < atan2 vx vy * 180 / π := by
      rw [lt_div_iff₀ hp]; nlinarith
    have hdθ : atan2 vx vy * 180 / π * (π / 180) = atan2 vx vy := by
      field_simp
    have hcog : 0 ≤ cog_deg360 vx vy ∧ cog_deg360 vx vy < 360
        ∧ (cog_deg360 vx vy * (π / 180) = atan2 vx vy
           ∨ cog_deg360 vx vy * (π / 180) = atan2 vx vy + 2 * π) := by
      rw [cog_deg360_eq]
      by_cases hneg : atan2 vx vy * 180 / π < 0
      · rw [if_pos hneg]
        refine ⟨by linarith, by linarith, Or.inr ?_⟩
        rw [add_mul, hdθ]
        have h360 : (360 : ℝ) * (π / 180) = 2 * π := by ring
        rw [h360]
      · rw [if_neg hneg]
        exact ⟨not_lt.mp hneg, by linarith, Or.inl hdθ⟩
    refine ⟨hcog.1, hcog.2.1, hcog.2.2, ?_, ?_⟩
    · rw [hil_cog_field, Int.floor_nonneg]
      nlinarith [hcog.1]
    · rw [hil_cog_field, Int.floor_lt]
      push_cast
      nlinarith [hcog.2.1]
  refine ⟨?_, ?_, ?_, ?_⟩
  · have ha : atan2 0 1 = 0 := by
      unfold atan2
      rw [if_pos (by norm_num : (0:ℝ) < 1)]
      norm_num [Real.arctan_zero]
    rw [cog_deg360_eq, ha]
    norm_num
  · have ha : atan2 1 0 = π / 2 := by
      unfold atan2
      norm_num
    rw [cog_deg360_eq, ha]
    have h90 : π / 2 * 180 / π = 90 := by field_simp; ring
    rw [h90]
    norm_num
  · have ha : atan2 0 (-1) = π := by
      unfold atan2
      norm_num [Real.arctan_zero]
    rw [cog_deg360_eq, ha]
    have h180 : π * 180 / π = 180 := by field_simp
    rw [h180]
    norm_num
  · have ha : atan2 (-1) 0 = -(π / 2) := by
      unfold atan2
      norm_num
    rw [cog_deg360_eq, ha]
    have h270 : -(π / 2) * 180 / π = -90 := by field_simp; ring
    rw [h270]
    norm_num

end SitlGazebo
